import Mathlib

/-!
Verification development for the architecture-aware anti-pattern analyzer
(`architecture_aware_analyzer.py`).  The Python source is shallowly embedded:
pure string scanning is translated to Lean string functions; every regular
expression whose pattern is an alternation of literal substrings is modelled
exactly as a substring test, and the few regular expressions that use
non-literal syntax (character classes, `\s*`, `.*`) are modelled as boolean
inputs carried in a `RegexEnv` record, one field per pattern, representing
the outcome of the corresponding `re.search` / `re.findall` call on the
file's content.  Exceptions raised by external libraries (`radon`'s
`raw_analyze` and `cc_visit`) are modelled as `Option` inputs, `none`
standing for a raised exception.
-/

/-- Containment of one character list in another, by scanning suffixes. -/
def charsContain (needle : List Char) : List Char → Bool
  | [] => needle.isEmpty
  | c :: cs => needle.isPrefixOf (c :: cs) || charsContain needle cs

/-- Substring containment: Python's `needle in hay` on strings, and
`re.search` for a pattern that is a single literal. -/
def strContains (needle hay : String) : Bool :=
  charsContain needle.toList hay.toList

/-- Disjunction of literal substring tests: `re.search` for an alternation of
literal substrings, or Python's `any(x in s for x in …)`. -/
def strContainsAny (needles : List String) (hay : String) : Bool :=
  needles.any (fun n => strContains n hay)

/-- ASCII lower-casing of one character, as Python's `str.lower` acts on the
ASCII identifiers and paths this analyzer scans. -/
def lowerChar (c : Char) : Char :=
  if 65 ≤ c.toNat ∧ c.toNat ≤ 90 then Char.ofNat (c.toNat + 32) else c

/-- Python's `s.lower()`. -/
def strLower (s : String) : String :=
  ⟨s.toList.map lowerChar⟩

/-- The closed set of layer names returned by `detect_layer`
(lines 86-114 of the source). -/
inductive Layer where
  | controller
  | service
  | repository
  | entity
  | adapter
  | port
  | other
deriving DecidableEq, Repr

/-- The closed set of architecture-style names used throughout the source
(`'layered' | 'hexagonal' | 'clean_architecture' | 'mvc'`). -/
inductive Arch where
  | layered
  | hexagonal
  | clean_architecture
  | mvc
deriving DecidableEq, Repr

/-- The severity scale `{low, medium, high, critical}` used by
`detect_architecture_violations`. -/
inductive Sev where
  | low
  | medium
  | high
  | critical
deriving DecidableEq, Repr

/-- Numeric rank of a severity level, ordering low < medium < high < critical. -/
def Sev.toNat : Sev → Nat
  | .low => 0
  | .medium => 1
  | .high => 2
  | .critical => 3

instance : LE Sev := ⟨fun a b => a.toNat ≤ b.toNat⟩

instance : DecidableRel (fun a b : Sev => a ≤ b) :=
  fun a b => (inferInstance : Decidable (a.toNat ≤ b.toNat))

/-- The Python string value of each architecture style (as written into the
output row and the synthesized label). -/
def arch_str : Arch → String
  | .layered => "layered"
  | .hexagonal => "hexagonal"
  | .clean_architecture => "clean_architecture"
  | .mvc => "mvc"

/-- The Python string value of each layer. -/
def layer_str : Layer → String
  | .controller => "controller"
  | .service => "service"
  | .repository => "repository"
  | .entity => "entity"
  | .adapter => "adapter"
  | .port => "port"
  | .other => "other"

/-- `re.search(r'@(RestController|Controller)', content)` (line 91):
an alternation of literals, i.e. a substring test. -/
def annCtrlMark (content : String) : Bool :=
  strContainsAny ["@RestController", "@Controller"] content

/-- `re.search(r'@Service', content)` (line 93). -/
def annSvcMark (content : String) : Bool :=
  strContains "@Service" content

/-- `re.search(r'@Repository', content)` (line 95). -/
def annRepoMark (content : String) : Bool :=
  strContains "@Repository" content

/-- `re.search(r'@Entity|@Table', content)` (line 97). -/
def annEntMark (content : String) : Bool :=
  strContainsAny ["@Entity", "@Table"] content

/-- Some framework-role annotation marker matches the content (the
disjunction of the four checks of lines 91-98). -/
def hasAnnMark (content : String) : Bool :=
  annCtrlMark content || annSvcMark content || annRepoMark content || annEntMark content

/-- The path-substring vocabulary of lines 101-112: true when any of the
path checks of `detect_layer` would match the lower-cased path. -/
def pathVocabMark (filepath : String) : Bool :=
  let fp := strLower filepath
  strContainsAny ["controller", "web", "rest", "api"] fp ||
  strContainsAny ["service", "business", "usecase"] fp ||
  strContainsAny ["repository", "dao", "jpa"] fp ||
  strContainsAny ["entity", "model", "domain", "dto"] fp ||
  strContains "adapter" fp ||
  strContains "port" fp

/-- STEP 2 of the source: `detect_layer(filepath, content)` (lines 86-114).
Annotations are checked first (most reliable), then the lower-cased file
path, and `other` is the fall-through. -/
def detect_layer (filepath content : String) : Layer :=
  let filepath_lower := strLower filepath
  if annCtrlMark content then .controller
  else if annSvcMark content then .service
  else if annRepoMark content then .repository
  else if annEntMark content then .entity
  else if strContainsAny ["controller", "web", "rest", "api"] filepath_lower then .controller
  else if strContainsAny ["service", "business", "usecase"] filepath_lower then .service
  else if strContainsAny ["repository", "dao", "jpa"] filepath_lower then .repository
  else if strContainsAny ["entity", "model", "domain", "dto"] filepath_lower then .entity
  else if strContains "adapter" filepath_lower then .adapter
  else if strContains "port" filepath_lower then .port
  else .other

/-- The per-style indicator weights accumulated by the directory / content
scan of `detect_architecture_pattern` (lines 21-67): one non-negative
counter per style, in the dict's insertion order
`layered, hexagonal, clean_architecture, mvc`. -/
structure Indicators where
  layered : Nat
  hexagonal : Nat
  clean_architecture : Nat
  mvc : Nat
deriving DecidableEq, Repr

/-- The weight an `Indicators` value assigns to one style
(`indicators[arch]`). -/
def indicatorOf (i : Indicators) : Arch → Nat
  | .layered => i.layered
  | .hexagonal => i.hexagonal
  | .clean_architecture => i.clean_architecture
  | .mvc => i.mvc

/-- `total_score = sum(indicators.values())` (line 70). -/
def total_score (i : Indicators) : Nat :=
  i.layered + i.hexagonal + i.clean_architecture + i.mvc

/-- `max(indicators, key=indicators.get)` (line 74): the first key, in the
dict's insertion order, holding the maximal value (later keys replace the
running maximum only when strictly greater), paired with that value. -/
def max_arch (i : Indicators) : Arch × Nat :=
  let step := fun (acc x : Arch × Nat) => if x.2 > acc.2 then x else acc
  step (step (step (Arch.layered, i.layered)
    (Arch.hexagonal, i.hexagonal))
    (Arch.clean_architecture, i.clean_architecture))
    (Arch.mvc, i.mvc)

/-- The decision tail of STEP 1 of the source, `detect_architecture_pattern`
(lines 69-81), taking as input the indicator weights accumulated by the
`os.walk` evidence scan of lines 29-67.  Zero total weight falls back to
`('layered', 0.3)`; otherwise confidence is the arg-max weight over the
total, and whenever the `layered` and `mvc` weights differ by at most 2 the
returned style is `mvc` (Spring Boot bias), the confidence still being the
arg-max one. -/
def detect_architecture_pattern (i : Indicators) : Arch × ℚ :=
  if total_score i = 0 then
    (Arch.layered, 3/10)
  else
    let m := max_arch i
    let confidence : ℚ := (m.2 : ℚ) / (total_score i : ℚ)
    if |(i.layered : ℤ) - (i.mvc : ℤ)| ≤ 2 then
      (Arch.mvc, confidence)
    else
      (m.1, confidence)

/-- The cross-layer dependency buckets of STEP 3 (lines 124-133), all
initialized to zero and never removed. -/
structure Deps where
  controller : Nat
  service : Nat
  repository : Nat
  entity : Nat
  adapter : Nat
  port : Nat
  usecase : Nat
  gateway : Nat
deriving DecidableEq, Repr

/-- One step of the `@Autowired` loop (lines 140-148): the captured
type-name token is lower-cased and each keyword found as a substring
increments its bucket by one (a token may hit several buckets); each
source statement `if k in dep_type: deps[k] += 1` is rendered as the
bucket's new value `old + (1 if matched else 0)`.  The `entity` bucket is
never touched by either loop. -/
def autowiredStep (d : Deps) (tok : String) : Deps :=
  let dep_type := strLower tok
  { controller := d.controller + (if strContains "controller" dep_type then 1 else 0)
    service := d.service + (if strContains "service" dep_type then 1 else 0)
    repository := d.repository +
      (if strContains "repository" dep_type || strContains "dao" dep_type then 1 else 0)
    entity := d.entity
    adapter := d.adapter + (if strContains "adapter" dep_type then 1 else 0)
    port := d.port + (if strContains "port" dep_type then 1 else 0)
    usecase := d.usecase + (if strContains "usecase" dep_type then 1 else 0)
    gateway := d.gateway + (if strContains "gateway" dep_type then 1 else 0) }

/-- One step of the constructor-injection loop (lines 151-159): the whole
captured parameter list is tested, case-sensitively, against capitalized
keywords, each match incrementing its bucket by one. -/
def constructorStep (d : Deps) (params : String) : Deps :=
  { controller := d.controller + (if strContains "Controller" params then 1 else 0)
    service := d.service + (if strContains "Service" params then 1 else 0)
    repository := d.repository +
      (if strContains "Repository" params || strContains "Dao" params then 1 else 0)
    entity := d.entity
    adapter := d.adapter + (if strContains "Adapter" params then 1 else 0)
    port := d.port + (if strContains "Port" params then 1 else 0)
    usecase := d.usecase + (if strContains "UseCase" params then 1 else 0)
    gateway := d.gateway + (if strContains "Gateway" params then 1 else 0) }

/-- STEP 3 of the source, `analyze_dependencies(content, layer)`
(lines 119-161).  The regex captures are taken as inputs:
`autowiredTypes` is the list of `group(1)` captures of
`@Autowired\s+(?:private\s+)?(\w+)\s+(\w+);` over the content, and
`constructorParams` the list of `group(1)` captures of
`public\s+\w+\s*\(([^)]+)\)`.  (The source's `layer` parameter is unused
there and omitted here.) -/
def analyze_dependencies (autowiredTypes constructorParams : List String) : Deps :=
  let deps : Deps := ⟨0, 0, 0, 0, 0, 0, 0, 0⟩
  let deps := autowiredTypes.foldl autowiredStep deps
  constructorParams.foldl constructorStep deps

/-- Outcomes of the `re` calls whose patterns use non-literal regex syntax
(character classes, `\s*`, `[^)]*`, `.*`, `\w+`, anchors), carried as
inputs; each field is the result of the corresponding `re.search`
(`true` iff it matched) or `re.findall` (the match count) on the content. -/
structure RegexEnv where
  /-- `if\s*\([^)]*\)\s*{[^}]*(?:save|update|delete|calculate)` with DOTALL (line 188). -/
  blIfMatch : Bool
  /-- `for\s*\([^)]*\)\s*{[^}]*(?:process|compute)` with DOTALL (line 189). -/
  blForMatch : Bool
  /-- `switch\s*\([^)]*\)\s*{[^}]*case` with DOTALL (line 191). -/
  blSwitchMatch : Bool
  /-- `catch\s*\(\s*(Exception|Throwable)\s+` (line 258). -/
  catchBroadMatch : Bool
  /-- `@(PostMapping|PutMapping).*@RequestBody` with DOTALL (line 264). -/
  postPutBodyMatch : Bool
  /-- `new\s+(.*?)(Service|Repository|Dao|Adapter)\(` (line 270). -/
  newCouplingMatch : Bool
  /-- Any of the three framework import patterns
  `import\s+org\.springframework\.`, `import\s+javax\.persistence\.`,
  `import\s+org\.hibernate\.` (lines 215-219; the loop breaks on the
  first match, so only the disjunction is observable). -/
  frameworkImportMatch : Bool
  /-- `implements\s+\w+Port` (line 227). -/
  implementsPortMatch : Bool
  /-- Any of `if\s*\(`, `for\s*\(`, `while\s*\(`, `switch\s*\(`
  (line 290; the literal `\.stream\(\)` member of that list is computed
  from the content directly). -/
  ctrlFlowMatch : Bool
  /-- `len(re.findall(r"^import\s", content, re.MULTILINE))` (line 429). -/
  importsCount : Nat
  /-- `len(re.findall(r"@[A-Za-z]", content))` (line 430). -/
  annotCount : Nat
deriving DecidableEq, Repr

/-- `re.search(r'@(Controller|RestController|Repository|Entity)', content)`
(line 240): alternation of literals. -/
def usecaseCouplingMark (content : String) : Bool :=
  strContainsAny ["@Controller", "@RestController", "@Repository", "@Entity"] content

/-- `re.search(r'@(Entity|Table|Column|Id)', content)` (line 246). -/
def entityCouplingMark (content : String) : Bool :=
  strContainsAny ["@Entity", "@Table", "@Column", "@Id"] content

/-- `re.search(r'\.(save|delete|update)\(', content)` (line 201). -/
def mutatingCallMark (content : String) : Bool :=
  strContainsAny [".save(", ".delete(", ".update("] content

/-- `re.search(r'@Transactional', content)` (lines 201, 306). -/
def transactionalMark (content : String) : Bool :=
  strContains "@Transactional" content

/-- `re.search(r'@Valid|@Validated', content)` (line 265). -/
def validMark (content : String) : Bool :=
  strContainsAny ["@Valid", "@Validated"] content

/-- The business-logic content test of lines 186-197: the loop over the four
patterns (with break) is observably their disjunction; pattern 3,
`\.stream\(\)\.filter\(`, is a literal. -/
def businessLogicMark (content : String) (env : RegexEnv) : Bool :=
  env.blIfMatch || env.blForMatch ||
    strContains ".stream().filter(" content || env.blSwitchMatch

/-- Result of one run of the violation rule engine: the ordered tag list,
the final severity, and the value of the running `severity` variable right
after each evaluated rule (style-family rules first, then the three common
rules). -/
structure EngineRun where
  violations : List String
  severity : Sev
  sevSteps : List Sev
deriving DecidableEq, Repr

/-- The style-specific rule families of `detect_architecture_violations`
(lines 173-253), started from `violations = []`, `severity = 'low'`
(lines 170-171).  Each rule's condition is written once for the tag append
and once for the severity assignment; both mirror the same source `if`.
Returns (violations, severity, severity after each rule of the family that
was evaluated). -/
def style_rules (content : String) (env : RegexEnv) (layer : Layer)
    (architecture : Arch) (deps : Deps) : List String × Sev × List Sev :=
  let violations : List String := []
  let severity : Sev := .low
  if architecture = .layered ∨ architecture = .mvc then
    let v1 := if layer = .controller ∧ deps.repository > 0 then
      violations ++ ["layer_skip_in_layered"] else violations
    let s1 := if layer = .controller ∧ deps.repository > 0 then Sev.high else severity
    let v2 := if layer = .service ∧ deps.controller > 0 then
      v1 ++ ["reversed_dependency_in_layered"] else v1
    let s2 := if layer = .service ∧ deps.controller > 0 then Sev.high else s1
    let v3 := if layer = .controller ∧ businessLogicMark content env then
      v2 ++ ["business_logic_in_controller_layered"] else v2
    let s3 := if layer = .controller ∧ businessLogicMark content env then Sev.medium else s2
    let v4 := if layer = .service ∧ mutatingCallMark content ∧ ¬ transactionalMark content then
      v3 ++ ["missing_transaction_in_layered"] else v3
    let s4 := if layer = .service ∧ mutatingCallMark content ∧ ¬ transactionalMark content then
      Sev.high else s3
    (v4, s4, [s1, s2, s3, s4])
  else if architecture = .hexagonal then
    let v1 := if layer = .service ∧ deps.repository > 0 ∧ deps.port = 0 then
      violations ++ ["missing_port_adapter_in_hexagonal"] else violations
    let s1 := if layer = .service ∧ deps.repository > 0 ∧ deps.port = 0 then
      Sev.critical else severity
    let v2 := if layer = .service ∧ env.frameworkImportMatch then
      v1 ++ ["framework_dependency_in_domain_hexagonal"] else v1
    let s2 := if layer = .service ∧ env.frameworkImportMatch then Sev.critical else s1
    let v3 := if layer = .adapter ∧ ¬ env.implementsPortMatch then
      v2 ++ ["adapter_without_port_hexagonal"] else v2
    let s3 := if layer = .adapter ∧ ¬ env.implementsPortMatch then Sev.medium else s2
    (v3, s3, [s1, s2, s3])
  else if architecture = .clean_architecture then
    let v1 := if layer = .controller ∧ (deps.entity > 0 ∨ deps.repository > 0) then
      violations ++ ["outer_depends_on_inner_clean"] else violations
    let s1 := if layer = .controller ∧ (deps.entity > 0 ∨ deps.repository > 0) then
      Sev.critical else severity
    let v2 := if layer = .service ∧ usecaseCouplingMark content then
      v1 ++ ["usecase_framework_coupling_clean"] else v1
    let s2 := if layer = .service ∧ usecaseCouplingMark content then Sev.critical else s1
    let v3 := if layer = .entity ∧ entityCouplingMark content then
      v2 ++ ["entity_framework_coupling_clean"] else v2
    let s3 := if layer = .entity ∧ entityCouplingMark content then Sev.medium else s2
    let v4 := if layer = .service ∧ deps.repository > 0 ∧ deps.gateway = 0 then
      v3 ++ ["missing_gateway_interface_clean"] else v3
    let s4 := if layer = .service ∧ deps.repository > 0 ∧ deps.gateway = 0 then
      Sev.high else s3
    (v4, s4, [s1, s2, s3, s4])
  else
    (violations, severity, [])

/-- The style-independent common rule family of
`detect_architecture_violations` (lines 255-272), run after the style
family on its resulting `(violations, severity)`: broad exception catching,
missing input validation on a controller endpoint, and tight coupling via
`new`; each only floors a `low` severity to `medium`. -/
def common_rules (content : String) (env : RegexEnv) (layer : Layer)
    (v : List String) (s : Sev) : List String × Sev × List Sev :=
  let v1 := if env.catchBroadMatch then v ++ ["broad_catch"] else v
  let s1 := if env.catchBroadMatch then (if s = Sev.low then Sev.medium else s) else s
  let v2 := if layer = .controller ∧ env.postPutBodyMatch ∧ ¬ validMark content then
    v1 ++ ["no_validation"] else v1
  let s2 := if layer = .controller ∧ env.postPutBodyMatch ∧ ¬ validMark content then
    (if s1 = Sev.low then Sev.medium else s1) else s1
  let v3 := if env.newCouplingMatch then v2 ++ ["tight_coupling_new_keyword"] else v2
  let s3 := if env.newCouplingMatch then (if s2 = Sev.low then Sev.medium else s2) else s2
  (v3, s3, [s1, s2, s3])

/-- STEP 4 of the source, `detect_architecture_violations(content, layer,
architecture, deps)` (lines 166-274): the style family, then the common
family, then the normalization `violations if violations else ['clean']`.
`sevSteps` records the running severity after each evaluated rule. -/
def detect_architecture_violations (content : String) (env : RegexEnv) (layer : Layer)
    (architecture : Arch) (deps : Deps) : EngineRun :=
  let sr := style_rules content env layer architecture deps
  let cr := common_rules content env layer sr.1 sr.2.1
  { violations := if cr.1 = [] then ["clean"] else cr.1
    severity := cr.2.1
    sevSteps := sr.2.2 ++ cr.2.2 }

/-- Number of rules in each style-specific family (the length of the
family's severity trace). -/
def styleRuleCount : Arch → Nat
  | .layered => 4
  | .mvc => 4
  | .hexagonal => 3
  | .clean_architecture => 4

/-- `violations[0] if violations and violations[0] != 'clean' else 'clean'`
(line 409). -/
def primary_anti_pattern (violations : List String) : String :=
  match violations with
  | [] => "clean"
  | v :: _ => if v = "clean" then "clean" else v

/-- STEP 7's label synthesis (lines 411-414):
`f"{primary}_in_{architecture}_{layer}"`, overridden to
`f"clean_{architecture}_{layer}"` when the primary violation is `clean`. -/
def context_label (primary : String) (architecture : Arch) (layer : Layer) : String :=
  let label := primary ++ "_in_" ++ arch_str architecture ++ "_" ++ layer_str layer
  if primary = "clean" then "clean_" ++ arch_str architecture ++ "_" ++ layer_str layer
  else label

/-- The boolean code-characteristic flags of STEP 5 (lines 281-287). -/
structure Characteristics where
  has_business_logic : Bool
  has_data_access : Bool
  has_http_handling : Bool
  has_validation : Bool
  has_transaction : Bool
deriving DecidableEq, Repr

/-- STEP 5 of the source, `analyze_code_characteristics(content, layer)`
(lines 279-308); its `layer` parameter is unused there and omitted here.
Alternation-of-literal patterns are substring tests; `if\s*\(` and friends
come from the `RegexEnv`. -/
def analyze_code_characteristics (content : String) (env : RegexEnv) : Characteristics :=
  { has_business_logic := env.ctrlFlowMatch || strContains ".stream()" content
    has_data_access := strContainsAny
      [".save(", ".find(", ".delete(", ".update(", ".query(", ".execute(",
        "@Query", "JpaRepository"] content
    has_http_handling := strContainsAny
      ["@GetMapping", "@PostMapping", "@PutMapping", "@DeleteMapping",
        "@RequestMapping", "HttpServletRequest", "HttpServletResponse"] content
    has_validation := strContainsAny ["@Valid", "@Validated", "@NotNull", "@NotEmpty"] content
    has_transaction := strContains "@Transactional" content }

/-- STEP 6 of the source, `analyze_dependency_direction(layer, deps,
architecture)` (lines 313-361).  Every branch of the source that falls
through without returning ends at the final `return 'unknown'`. -/
def analyze_dependency_direction (layer : Layer) (deps : Deps) (architecture : Arch) : String :=
  if architecture = .layered ∨ architecture = .mvc then
    if layer = .controller then
      if deps.repository > 0 ∨ deps.entity > 0 then "skip_layer"
      else if deps.service > 0 then "correct"
      else "unknown"
    else if layer = .service then
      if deps.controller > 0 then "reversed"
      else if deps.repository ≥ 0 then "correct"
      else "unknown"
    else if layer = .repository then
      if deps.service > 0 ∨ deps.controller > 0 then "reversed" else "correct"
    else "unknown"
  else if architecture = .hexagonal then
    if layer = .adapter then
      if deps.port > 0 then "correct" else "missing_port"
    else if layer = .service then
      if deps.adapter > 0 then "reversed"
      else if deps.port > 0 then "correct"
      else "unknown"
    else "unknown"
  else if architecture = .clean_architecture then
    if layer = .controller then
      if deps.usecase > 0 ∨ deps.gateway > 0 then "correct"
      else if deps.entity > 0 ∨ deps.repository > 0 then "dependency_rule_violation"
      else "unknown"
    else if layer = .service then
      if deps.controller > 0 then "reversed"
      else if deps.gateway > 0 ∨ deps.entity > 0 then "correct"
      else "unknown"
    else "unknown"
  else "unknown"

/-- The result object of `radon.raw.analyze` as the source consumes it:
`getattr(raw, 'loc', 0)` (line 425), `hasattr/len` for `functions` and
`methods` (lines 402-406), `len(getattr(raw, 'classes', []))` (line 427).
`none` models a missing attribute. -/
structure RawMetrics where
  loc : Option Nat
  functionsLen : Option Nat
  methodsLen : Option Nat
  classesLen : Option Nat
deriving DecidableEq, Repr

/-- `safe_cc(content)` (lines 465-470): `ccResult` models the outcome of
`cc_visit(content)` — `none` when it raises, otherwise the list of per-unit
complexities.  An empty unit list or an exception defaults to 1.0;
otherwise the mean complexity is returned. -/
def safe_cc (ccResult : Option (List ℚ)) : ℚ :=
  match ccResult with
  | none => 1
  | some [] => 1
  | some results => results.sum / (results.length : ℚ)

/-- `os.path.basename`: the path component after the last `/`. -/
def basename (p : String) : String :=
  ⟨(p.toList.reverse.takeWhile (fun c => c ≠ '/')).reverse⟩

/-- `os.path.dirname`: the path up to (excluding) the last `/`; empty when
the path has no separator. -/
def dirname (p : String) : String :=
  ⟨(((p.toList.reverse.dropWhile (fun c => c ≠ '/')).drop 1)).reverse⟩

/-- One output record of the analyzer, with the source's CSV column set
(lines 417-461).  The source rounds `architecture_confidence` and `avg_cc`
to two decimals for display; the unrounded values are kept here. -/
structure Row where
  file : String
  repo : String
  layer : Layer
  architecture_pattern : Arch
  architecture_confidence : ℚ
  loc : Nat
  methods : Nat
  classes : Nat
  avg_cc : ℚ
  imports : Nat
  annotations : Nat
  controller_deps : Nat
  service_deps : Nat
  repository_deps : Nat
  entity_deps : Nat
  adapter_deps : Nat
  port_deps : Nat
  usecase_deps : Nat
  gateway_deps : Nat
  total_cross_layer_deps : Nat
  has_business_logic : Bool
  has_data_access : Bool
  has_http_handling : Bool
  has_validation : Bool
  has_transaction : Bool
  dependency_direction : String
  violates_layer_separation : Bool
  anti_pattern : String
  all_violations : String
  severity : Sev
  context_specific_label : String
deriving DecidableEq, Repr

/-- One Java file as the per-file analysis sees it after a successful read:
the content (the ≤ 5MB prefix read at line 370), the non-literal regex
outcomes, the dependency-pattern captures, and the outcomes of the two
`radon` calls (`none` = the call raised). -/
structure FileData where
  filepath : String
  content : String
  env : RegexEnv
  autowiredTypes : List String
  constructorParams : List String
  rawResult : Option RawMetrics
  ccResult : Option (List ℚ)

/-- STEP 7 of the source, `analyze_file(filepath, architecture,
architecture_confidence)` (lines 366-463), from the point where the read
succeeded (an unreadable file returns `None` at line 372 before any
analysis).  Too-short content, a raised `raw_analyze`, or an `other` layer
produce no record; otherwise the full row is built. -/
def analyze_file (fd : FileData) (architecture : Arch)
    (architecture_confidence : ℚ) : Option Row :=
  if fd.content.length < 50 then none
  else
    match fd.rawResult with
    | none => none
    | some raw =>
      let layer := detect_layer fd.filepath fd.content
      if layer = Layer.other then none
      else
        let deps := analyze_dependencies fd.autowiredTypes fd.constructorParams
        let characteristics := analyze_code_characteristics fd.content fd.env
        let dep_direction := analyze_dependency_direction layer deps architecture
        let run := detect_architecture_violations fd.content fd.env layer architecture deps
        let methods_count := (match raw.functionsLen with | some n => n | none => 0) +
          (match raw.methodsLen with | some n => n | none => 0)
        let primary := primary_anti_pattern run.violations
        some {
          file := basename fd.filepath
          repo := (let r := basename (dirname (dirname fd.filepath))
                   if r = "" then "unknown" else r)
          layer := layer
          architecture_pattern := architecture
          architecture_confidence := architecture_confidence
          loc := raw.loc.getD 0
          methods := methods_count
          classes := raw.classesLen.getD 0
          avg_cc := safe_cc fd.ccResult
          imports := fd.env.importsCount
          annotations := fd.env.annotCount
          controller_deps := deps.controller
          service_deps := deps.service
          repository_deps := deps.repository
          entity_deps := deps.entity
          adapter_deps := deps.adapter
          port_deps := deps.port
          usecase_deps := deps.usecase
          gateway_deps := deps.gateway
          total_cross_layer_deps := deps.controller + deps.service + deps.repository +
            deps.entity + deps.adapter + deps.port + deps.usecase + deps.gateway
          has_business_logic := characteristics.has_business_logic
          has_data_access := characteristics.has_data_access
          has_http_handling := characteristics.has_http_handling
          has_validation := characteristics.has_validation
          has_transaction := characteristics.has_transaction
          dependency_direction := dep_direction
          violates_layer_separation :=
            ["skip_layer", "reversed", "dependency_rule_violation", "missing_port"].contains
              dep_direction
          anti_pattern := primary
          all_violations := String.intercalate "|" run.violations
          severity := run.severity
          context_specific_label := context_label primary architecture layer
        }

/-- Witness input for C5: a service-by-path file with one repository
dependency and no gateway dependency. -/
def fdC5 : FileData :=
  ⟨"repos/app/src/service/UserService.java",
   "public class UserService wires one stored collaborator by construction",
   ⟨false, false, false, false, false, false, false, false, false, 0, 0⟩,
   ["UserRepository"], [], none, none⟩

/-- A readable, path-classifiable file whose raw-metrics analysis raised
(`rawResult = none`): used to exhibit that such a file is excluded. -/
def fdC3 : FileData :=
  ⟨"repos/app/src/service/B.java",
   "public class B handles persistence logic for the demo app!!",
   ⟨false, false, false, false, false, false, false, false, false, 0, 0⟩,
   [], [], none, none⟩

/-- The same file but with the raw-metrics analysis succeeding (with no
optional attributes) and the complexity pass raising. -/
def fdC3b : FileData :=
  ⟨"repos/app/src/service/B.java",
   "public class B handles persistence logic for the demo app!!",
   ⟨false, false, false, false, false, false, false, false, false, 0, 0⟩,
   [], [], some ⟨some 10, none, none, none⟩, none⟩

/-! ## Helper lemmas -/

/-- A severity-flooring step (as the common rules perform it) never lowers
the running severity. -/
theorem sev_floor_le (s : Sev) (c : Prop) [Decidable c] :
    s ≤ (if c then (if s = Sev.low then Sev.medium else s) else s) := by
  split
  · cases s <;> decide
  · exact Nat.le_refl _

/-- Starting from severity `s`, the running severity is non-decreasing
through the three common rules. -/
theorem common_chain (content : String) (env : RegexEnv) (layer : Layer)
    (v : List String) (s : Sev) :
    List.Chain' (fun a b : Sev => a ≤ b) (s :: (common_rules content env layer v s).2.2) := by
  simp only [common_rules, List.chain'_cons, List.chain'_singleton]
  exact ⟨sev_floor_le _ _, sev_floor_le _ _, sev_floor_le _ _, trivial⟩

/-- The common rules only append tags to the incoming violation list. -/
theorem common_fst (content : String) (env : RegexEnv) (layer : Layer)
    (v : List String) (s : Sev) :
    ∃ t, (common_rules content env layer v s).1 = v ++ t := by
  simp only [common_rules]
  split_ifs <;>
    first
    | exact ⟨[], (List.append_nil v).symm⟩
    | (simp only [List.append_assoc]; exact ⟨_, rfl⟩)
    | exact ⟨_, rfl⟩

/-- A severity other than `low` passes through the common rules unchanged. -/
theorem common_sev_of_ne_low (content : String) (env : RegexEnv) (layer : Layer)
    (v : List String) (s : Sev) (hs : s ≠ Sev.low) :
    (common_rules content env layer v s).2.1 = s := by
  simp only [common_rules]
  split_ifs <;> simp_all

/-- The common rules never raise a non-critical severity to critical. -/
theorem common_ne_critical (content : String) (env : RegexEnv) (layer : Layer)
    (v : List String) (s : Sev) (hs : s ≠ Sev.critical) :
    (common_rules content env layer v s).2.1 ≠ Sev.critical := by
  simp only [common_rules]
  split_ifs <;> simp_all

/-- Under the layered/mvc style family the running severity never reaches
`critical` (that family only assigns `high` or `medium`). -/
theorem style_rules_layered_ne_critical (content : String) (env : RegexEnv)
    (layer : Layer) (architecture : Arch) (deps : Deps)
    (h : architecture = Arch.layered ∨ architecture = Arch.mvc) :
    (style_rules content env layer architecture deps).2.1 ≠ Sev.critical := by
  simp only [style_rules, if_pos h]
  split_ifs <;> simp_all

/-- The value carried by `max_arch` is the weight of the style it names. -/
theorem max_arch_val (i : Indicators) :
    (max_arch i).2 = indicatorOf i (max_arch i).1 := by
  simp only [max_arch, indicatorOf]
  split_ifs <;> rfl

/-- `max_arch` attains a weight at least as large as every style's weight. -/
theorem max_arch_ge (i : Indicators) (a : Arch) :
    indicatorOf i a ≤ (max_arch i).2 := by
  rcases a <;> simp only [max_arch, indicatorOf] <;> split_ifs <;> omega

/-- The maximal style weight is at most the total weight. -/
theorem max_arch_le_total (i : Indicators) :
    (max_arch i).2 ≤ total_score i := by
  simp only [max_arch, total_score]
  split_ifs <;> omega

/-- Folding a step function that adds one to a tracked bucket exactly when a
predicate holds counts the satisfying elements. -/
theorem foldl_count {g : Deps → Nat} {p : String → Bool} {f : Deps → String → Deps}
    (hf : ∀ d t, g (f d t) = g d + (if p t then 1 else 0)) :
    ∀ (l : List String) (d : Deps), g (l.foldl f d) = g d + l.countP p := by
  intro l
  induction l with
  | nil => intro d; simp
  | cons x xs ih =>
    intro d
    rw [List.foldl_cons, ih, hf, List.countP_cons]
    cases hpx : p x <;> (simp [hpx]; try omega)

/-- When no layer-classifying annotation marker is present, the
clean-architecture framework-coupling regex (line 240) cannot match either:
its four literal alternatives are among the classifier's markers. -/
theorem usecaseCoupling_of_no_ann (content : String)
    (h1 : annCtrlMark content = false) (h3 : annRepoMark content = false)
    (h4 : annEntMark content = false) :
    usecaseCouplingMark content = false := by
  simp only [annCtrlMark, annEntMark, strContainsAny, List.any, Bool.or_eq_false_iff] at h1 h4
  simp only [annRepoMark] at h3
  simp only [usecaseCouplingMark, strContainsAny, List.any, Bool.or_eq_false_iff]
  simp_all

/-! ## Claim theorems -/

/-- C7: layer classification applies its two evidence sources in strict
priority order — when any framework-role annotation marker matches, the
layer is determined by the first matching annotation (`@RestController`/
`@Controller`, then `@Service`, then `@Repository`, then `@Entity`/`@Table`)
independently of the file's path; the path-substring vocabulary is only
consulted when no annotation matched (the result then being independent of
the content).  Totality — every file getting exactly one layer — holds
because `detect_layer` is a total function into `Layer`. -/
theorem C7_annotation_priority :
    (∀ filepath filepath2 content, hasAnnMark content = true →
      detect_layer filepath content = detect_layer filepath2 content) ∧
    (∀ filepath content, annCtrlMark content = true →
      detect_layer filepath content = Layer.controller) ∧
    (∀ filepath content, annCtrlMark content = false → annSvcMark content = true →
      detect_layer filepath content = Layer.service) ∧
    (∀ filepath content, annCtrlMark content = false → annSvcMark content = false →
      annRepoMark content = true → detect_layer filepath content = Layer.repository) ∧
    (∀ filepath content, annCtrlMark content = false → annSvcMark content = false →
      annRepoMark content = false → annEntMark content = true →
      detect_layer filepath content = Layer.entity) ∧
    (∀ filepath content content2, hasAnnMark content = false → hasAnnMark content2 = false →
      detect_layer filepath content = detect_layer filepath content2) := by
  refine ⟨?_, ?_, ?_, ?_, ?_, ?_⟩
  · intro fp fp2 c h
    by_cases h1 : annCtrlMark c <;> by_cases h2 : annSvcMark c <;>
      by_cases h3 : annRepoMark c <;> by_cases h4 : annEntMark c <;>
      simp_all [detect_layer, hasAnnMark]
  · intro fp c h
    simp [detect_layer, h]
  · intro fp c h1 h2
    simp [detect_layer, h1, h2]
  · intro fp c h1 h2 h3
    simp [detect_layer, h1, h2, h3]
  · intro fp c h1 h2 h3 h4
    simp [detect_layer, h1, h2, h3, h4]
  · intro fp c c2 h1 h2
    simp only [hasAnnMark, Bool.or_eq_false_iff] at h1 h2
    simp_all [detect_layer]

/-- Witness for C7 at concrete inputs. -/
theorem C7_annotation_priority_witness :
    detect_layer "p1/a" "x @Service y" = detect_layer "p2/b" "x @Service y" ∧
    detect_layer "q" "x @RestController y" = Layer.controller ∧
    detect_layer "q" "x @Service y" = Layer.service ∧
    detect_layer "q" "x @Repository y" = Layer.repository ∧
    detect_layer "q" "x @Entity y" = Layer.entity ∧
    detect_layer "zz/service/f" "aaa" = detect_layer "zz/service/f" "bbb" :=
  ⟨C7_annotation_priority.1 "p1/a" "p2/b" _ (by decide),
   C7_annotation_priority.2.1 "q" _ (by decide),
   C7_annotation_priority.2.2.1 "q" _ (by decide) (by decide),
   C7_annotation_priority.2.2.2.1 "q" _ (by decide) (by decide) (by decide),
   C7_annotation_priority.2.2.2.2.1 "q" _ (by decide) (by decide) (by decide) (by decide),
   C7_annotation_priority.2.2.2.2.2 "zz/service/f" "aaa" "bbb" (by decide) (by decide)⟩

/-- C8: a file matched by neither the annotation markers nor the
path-substring vocabulary is classified `other`, and a file whose layer is
`other` produces no output record (`analyze_file` returns `none` before any
dependency, violation, direction, or label computation). -/
theorem C8_other_rejected_and_excluded :
    (∀ filepath content, hasAnnMark content = false → pathVocabMark filepath = false →
      detect_layer filepath content = Layer.other) ∧
    (∀ (fd : FileData) (architecture : Arch) (confidence : ℚ),
      detect_layer fd.filepath fd.content = Layer.other →
      analyze_file fd architecture confidence = none) := by
  constructor
  · intro fp c h1 h2
    simp only [hasAnnMark, Bool.or_eq_false_iff] at h1
    simp only [pathVocabMark, Bool.or_eq_false_iff] at h2
    simp_all [detect_layer]
  · intro fd arch confidence h
    by_cases hlen : fd.content.length < 50
    · simp only [analyze_file, if_pos hlen]
    · simp only [analyze_file, if_neg hlen]
      cases fd.rawResult with
      | none => rfl
      | some raw => simp [h]

/-- Witness for C8 at concrete inputs. -/
theorem C8_other_rejected_and_excluded_witness :
    detect_layer "x/y.txt" "zzz" = Layer.other ∧
    analyze_file ⟨"x/y.txt", "zzz",
      ⟨false, false, false, false, false, false, false, false, false, 0, 0⟩,
      [], [], none, none⟩ Arch.layered 1 = none :=
  ⟨C8_other_rejected_and_excluded.1 "x/y.txt" "zzz" (by decide) (by decide),
   C8_other_rejected_and_excluded.2 _ _ _ (by decide)⟩

/-- C9: under the layered or mvc style the violation rule engine never
returns severity `critical` — the layered/mvc family assigns at most
`high`, and the common family only floors a `low` severity to `medium`. -/
theorem C9_layered_never_critical (content : String) (env : RegexEnv) (layer : Layer)
    (architecture : Arch) (deps : Deps)
    (h : architecture = Arch.layered ∨ architecture = Arch.mvc) :
    (detect_architecture_violations content env layer architecture deps).severity ≠
      Sev.critical := by
  simp only [detect_architecture_violations]
  exact common_ne_critical _ _ _ _ _ (style_rules_layered_ne_critical _ _ _ _ _ h)

/-- Witness for C9 at a concrete input. -/
theorem C9_layered_never_critical_witness :
    (detect_architecture_violations "" 
      ⟨false, false, false, false, false, false, false, false, false, 0, 0⟩
      Layer.controller Arch.layered ⟨0, 0, 1, 0, 0, 0, 0, 0⟩).severity ≠ Sev.critical :=
  C9_layered_never_critical _ _ _ _ _ (Or.inl rfl)

/-- C10: a successfully read file whose content is shorter than 50
characters yields no record: `analyze_file` returns `none` regardless of
everything else. -/
theorem C10_short_content_excluded (fd : FileData) (architecture : Arch)
    (confidence : ℚ) (h : fd.content.length < 50) :
    analyze_file fd architecture confidence = none := by
  simp only [analyze_file, if_pos h]

/-- Witness for C10 at a concrete input: a readable, classifiable, but tiny
file. -/
theorem C10_short_content_excluded_witness :
    ("tiny file".length < 50) ∧
    analyze_file ⟨"repos/app/src/service/A.java", "tiny file",
      ⟨false, false, false, false, false, false, false, false, false, 0, 0⟩,
      [], [], none, none⟩ Arch.layered 1 = none :=
  ⟨by decide, C10_short_content_excluded _ _ _ (by decide)⟩

/-- C5: a file classified `service` through its path (so no annotation
marker matched), under style `clean_architecture`, with repository
dependencies and no gateway dependencies, gets primary violation
`missing_gateway_interface_clean`, severity `high`, and label
`missing_gateway_interface_clean_in_clean_architecture_service`. -/
theorem C5_scenario (fd : FileData) (deps : Deps) (run : EngineRun)
    (h1 : annCtrlMark fd.content = false) (_h2 : annSvcMark fd.content = false)
    (h3 : annRepoMark fd.content = false) (h4 : annEntMark fd.content = false)
    (h5 : detect_layer fd.filepath fd.content = Layer.service)
    (_hd : analyze_dependencies fd.autowiredTypes fd.constructorParams = deps)
    (hrep : 0 < deps.repository) (hgw : deps.gateway = 0)
    (hrun : detect_architecture_violations fd.content fd.env
      (detect_layer fd.filepath fd.content) Arch.clean_architecture deps = run) :
    primary_anti_pattern run.violations = "missing_gateway_interface_clean" ∧
    run.severity = Sev.high ∧
    context_label (primary_anti_pattern run.violations) Arch.clean_architecture
      Layer.service = "missing_gateway_interface_clean_in_clean_architecture_service" := by
  subst hrun
  rw [h5]
  have hu : usecaseCouplingMark fd.content = false := usecaseCoupling_of_no_ann _ h1 h3 h4
  have hstyle : style_rules fd.content fd.env Layer.service Arch.clean_architecture deps =
      (["missing_gateway_interface_clean"], Sev.high, [Sev.low, Sev.low, Sev.low, Sev.high]) := by
    simp [style_rules, hu, hrep, hgw]
  obtain ⟨t, ht⟩ := common_fst fd.content fd.env Layer.service
    ["missing_gateway_interface_clean"] Sev.high
  have hsev := common_sev_of_ne_low fd.content fd.env Layer.service
    ["missing_gateway_interface_clean"] Sev.high (by decide)
  have hprim : primary_anti_pattern
      (detect_architecture_violations fd.content fd.env Layer.service
        Arch.clean_architecture deps).violations = "missing_gateway_interface_clean" := by
    simp only [detect_architecture_violations, hstyle]
    rw [ht]
    simp [primary_anti_pattern]
  refine ⟨hprim, ?_, ?_⟩
  · simp only [detect_architecture_violations, hstyle]
    exact hsev
  · rw [hprim]
    decide

/-- Witness for C5 at the concrete input `fdC5`. -/
theorem C5_scenario_witness :
    primary_anti_pattern (detect_architecture_violations fdC5.content fdC5.env
        (detect_layer fdC5.filepath fdC5.content) Arch.clean_architecture
        (analyze_dependencies fdC5.autowiredTypes fdC5.constructorParams)).violations =
      "missing_gateway_interface_clean" ∧
    (detect_architecture_violations fdC5.content fdC5.env
        (detect_layer fdC5.filepath fdC5.content) Arch.clean_architecture
        (analyze_dependencies fdC5.autowiredTypes fdC5.constructorParams)).severity =
      Sev.high ∧
    context_label (primary_anti_pattern (detect_architecture_violations fdC5.content fdC5.env
        (detect_layer fdC5.filepath fdC5.content) Arch.clean_architecture
        (analyze_dependencies fdC5.autowiredTypes fdC5.constructorParams)).violations)
      Arch.clean_architecture Layer.service =
      "missing_gateway_interface_clean_in_clean_architecture_service" :=
  C5_scenario fdC5 _ _ (by decide) (by decide) (by decide) (by decide) (by decide)
    rfl (by decide) (by decide) rfl

/-- C1 (amended): the running severity is non-decreasing from the last rule
of the style-specific family through the three common rules (a common rule
may floor `low` to `medium`, never lower); but within the style-specific
family a later rule assigns its fixed severity by overwrite, so the full
trace need not be monotone (see the counterexample). -/
theorem C1_common_family_monotone (content : String) (env : RegexEnv) (layer : Layer)
    (architecture : Arch) (deps : Deps) :
    List.Chain' (fun a b : Sev => a ≤ b)
      ((detect_architecture_violations content env layer architecture deps).sevSteps.drop
        (styleRuleCount architecture - 1)) := by
  rcases architecture <;>
    (simp [detect_architecture_violations, style_rules, styleRuleCount]
     exact common_chain _ _ _ _ _)

/-- C1 (counterexample): in a layered controller with a repository
dependency and business logic, rule 1 sets severity `high` and rule 3 then
overwrites it with `medium` — the severity trace decreases. -/
theorem C1_counterexample :
    (detect_architecture_violations ""
      ⟨true, false, false, false, false, false, false, false, false, 0, 0⟩
      Layer.controller Arch.layered ⟨0, 0, 1, 0, 0, 0, 0, 0⟩).sevSteps =
      [Sev.high, Sev.high, Sev.medium, Sev.medium, Sev.medium, Sev.medium, Sev.medium] ∧
    ¬ List.Chain' (fun a b : Sev => a ≤ b)
      ((detect_architecture_violations ""
        ⟨true, false, false, false, false, false, false, false, false, 0, 0⟩
        Layer.controller Arch.layered ⟨0, 0, 1, 0, 0, 0, 0, 0⟩).sevSteps) := by
  have hsteps : (detect_architecture_violations ""
      ⟨true, false, false, false, false, false, false, false, false, 0, 0⟩
      Layer.controller Arch.layered ⟨0, 0, 1, 0, 0, 0, 0, 0⟩).sevSteps =
      [Sev.high, Sev.high, Sev.medium, Sev.medium, Sev.medium, Sev.medium, Sev.medium] := by
    decide
  refine ⟨hsteps, ?_⟩
  rw [hsteps]
  intro h
  rw [List.chain'_cons, List.chain'_cons] at h
  exact absurd h.2.1 (by decide)

/-- C2 (amended): `max_arch` does pick a style of maximal accumulated
weight, and when the `layered` and `mvc` weights differ by more than the
tolerance 2 the detected style is that arg-max; but whenever
`|layered - mvc| ≤ 2` the result is `mvc` regardless of which style holds
the maximum — the bias check is applied unconditionally, so even a strictly
maximal `hexagonal` or `clean_architecture` is then overridden (see the
counterexample). -/
theorem C2_amended (i : Indicators) (h : total_score i ≠ 0) :
    (indicatorOf i Arch.layered ≤ indicatorOf i (max_arch i).1 ∧
     indicatorOf i Arch.hexagonal ≤ indicatorOf i (max_arch i).1 ∧
     indicatorOf i Arch.clean_architecture ≤ indicatorOf i (max_arch i).1 ∧
     indicatorOf i Arch.mvc ≤ indicatorOf i (max_arch i).1) ∧
    (|(i.layered : ℤ) - (i.mvc : ℤ)| ≤ 2 →
      (detect_architecture_pattern i).1 = Arch.mvc) ∧
    (¬ |(i.layered : ℤ) - (i.mvc : ℤ)| ≤ 2 →
      (detect_architecture_pattern i).1 = (max_arch i).1) := by
  refine ⟨⟨?_, ?_, ?_, ?_⟩, ?_, ?_⟩ <;>
    try (rw [← max_arch_val]; exact max_arch_ge i _)
  · intro habs
    simp only [detect_architecture_pattern]
    rw [if_neg h, if_pos habs]
  · intro habs
    simp only [detect_architecture_pattern]
    rw [if_neg h, if_neg habs]

/-- C2 (counterexample): with indicator weights `(0, 6, 0, 0)` — reachable
from, e.g., one `adapter` and one `port` directory — `hexagonal` holds the
strictly maximal weight, yet the detected style is `mvc` because
`|layered - mvc| = 0 ≤ 2`. -/
theorem C2_counterexample :
    total_score ⟨0, 6, 0, 0⟩ ≠ 0 ∧
    indicatorOf ⟨0, 6, 0, 0⟩ Arch.layered < indicatorOf ⟨0, 6, 0, 0⟩ Arch.hexagonal ∧
    indicatorOf ⟨0, 6, 0, 0⟩ Arch.clean_architecture <
      indicatorOf ⟨0, 6, 0, 0⟩ Arch.hexagonal ∧
    indicatorOf ⟨0, 6, 0, 0⟩ Arch.mvc < indicatorOf ⟨0, 6, 0, 0⟩ Arch.hexagonal ∧
    (detect_architecture_pattern ⟨0, 6, 0, 0⟩).1 = Arch.mvc := by
  refine ⟨by decide, by decide, by decide, by decide, by decide⟩

/-- Witness for C2 (amended) at the concrete input `(5, 0, 0, 0)`, where the
tolerance does not apply and the arg-max is returned. -/
theorem C2_amended_witness :
    total_score ⟨5, 0, 0, 0⟩ ≠ 0 ∧
    indicatorOf ⟨5, 0, 0, 0⟩ Arch.mvc ≤ indicatorOf ⟨5, 0, 0, 0⟩ (max_arch ⟨5, 0, 0, 0⟩).1 ∧
    (detect_architecture_pattern ⟨5, 0, 0, 0⟩).1 = (max_arch ⟨5, 0, 0, 0⟩).1 :=
  ⟨by decide, (C2_amended ⟨5, 0, 0, 0⟩ (by decide)).1.2.2.2,
   (C2_amended ⟨5, 0, 0, 0⟩ (by decide)).2.2 (by decide)⟩

/-- C4: the confidence returned by style detection lies in [0,1]; it is the
fixed fallback 0.3 (with the default style `layered`) when the total weight
is zero, and the arg-max weight divided by the total weight otherwise. -/
theorem C4_confidence_bounds (i : Indicators) :
    0 ≤ (detect_architecture_pattern i).2 ∧ (detect_architecture_pattern i).2 ≤ 1 ∧
    (total_score i = 0 → detect_architecture_pattern i = (Arch.layered, 3/10)) ∧
    (total_score i ≠ 0 →
      (detect_architecture_pattern i).2 =
        (indicatorOf i (max_arch i).1 : ℚ) / (total_score i : ℚ)) := by
  by_cases h : total_score i = 0
  · have hp : detect_architecture_pattern i = (Arch.layered, 3/10) := by
      simp only [detect_architecture_pattern, if_pos h]
    rw [hp]
    exact ⟨by norm_num, by norm_num, fun _ => rfl, fun hc => absurd h hc⟩
  · have h2 : (detect_architecture_pattern i).2 =
        ((max_arch i).2 : ℚ) / (total_score i : ℚ) := by
      simp only [detect_architecture_pattern]
      rw [if_neg h]
      by_cases habs : |(i.layered : ℤ) - (i.mvc : ℤ)| ≤ 2
      · rw [if_pos habs]
      · rw [if_neg habs]
    have hpos : (0 : ℚ) < (total_score i : ℚ) := by
      exact_mod_cast Nat.pos_of_ne_zero h
    refine ⟨?_, ?_, fun hc => absurd hc h, fun _ => ?_⟩
    · rw [h2]
      positivity
    · rw [h2, div_le_one hpos]
      exact_mod_cast max_arch_le_total i
    · rw [h2, max_arch_val]

/-- Witness for C4 at the concrete input `(1, 0, 0, 0)`. -/
theorem C4_confidence_bounds_witness :
    0 ≤ (detect_architecture_pattern ⟨1, 0, 0, 0⟩).2 ∧
    (detect_architecture_pattern ⟨1, 0, 0, 0⟩).2 ≤ 1 ∧
    (detect_architecture_pattern ⟨1, 0, 0, 0⟩).2 =
      (indicatorOf ⟨1, 0, 0, 0⟩ (max_arch ⟨1, 0, 0, 0⟩).1 : ℚ) /
        (total_score ⟨1, 0, 0, 0⟩ : ℚ) :=
  ⟨(C4_confidence_bounds ⟨1, 0, 0, 0⟩).1, (C4_confidence_bounds ⟨1, 0, 0, 0⟩).2.1,
   (C4_confidence_bounds ⟨1, 0, 0, 0⟩).2.2.2 (by decide)⟩

/-- C6 (amended): the `@Autowired`-captured type tokens are tested
case-insensitively (the token is lower-cased) against the lowercase layer
keywords, each match incrementing the bucket by one and one token possibly
hitting several buckets; the constructor captures, however, are whole
parameter lists tested case-sensitively against the capitalized keywords,
incrementing each matched bucket at most once per constructor; the `entity`
bucket is never incremented by either pattern.  The counts are exactly the
numbers of matching captures. -/
theorem C6_amended (autowiredTypes constructorParams : List String) :
    (analyze_dependencies autowiredTypes constructorParams).controller =
      autowiredTypes.countP (fun t => strContains "controller" (strLower t)) +
      constructorParams.countP (fun p => strContains "Controller" p) ∧
    (analyze_dependencies autowiredTypes constructorParams).service =
      autowiredTypes.countP (fun t => strContains "service" (strLower t)) +
      constructorParams.countP (fun p => strContains "Service" p) ∧
    (analyze_dependencies autowiredTypes constructorParams).repository =
      autowiredTypes.countP
        (fun t => strContains "repository" (strLower t) || strContains "dao" (strLower t)) +
      constructorParams.countP
        (fun p => strContains "Repository" p || strContains "Dao" p) ∧
    (analyze_dependencies autowiredTypes constructorParams).entity = 0 ∧
    (analyze_dependencies autowiredTypes constructorParams).adapter =
      autowiredTypes.countP (fun t => strContains "adapter" (strLower t)) +
      constructorParams.countP (fun p => strContains "Adapter" p) ∧
    (analyze_dependencies autowiredTypes constructorParams).port =
      autowiredTypes.countP (fun t => strContains "port" (strLower t)) +
      constructorParams.countP (fun p => strContains "Port" p) ∧
    (analyze_dependencies autowiredTypes constructorParams).usecase =
      autowiredTypes.countP (fun t => strContains "usecase" (strLower t)) +
      constructorParams.countP (fun p => strContains "UseCase" p) ∧
    (analyze_dependencies autowiredTypes constructorParams).gateway =
      autowiredTypes.countP (fun t => strContains "gateway" (strLower t)) +
      constructorParams.countP (fun p => strContains "Gateway" p) := by
  simp only [analyze_dependencies]
  refine ⟨?_, ?_, ?_, ?_, ?_, ?_, ?_, ?_⟩
  · rw [@foldl_count Deps.controller (fun p => strContains "Controller" p) constructorStep
        (fun _ _ => rfl) constructorParams _,
      @foldl_count Deps.controller (fun t => strContains "controller" (strLower t)) autowiredStep
        (fun _ _ => rfl) autowiredTypes _]
    simp
  · rw [@foldl_count Deps.service (fun p => strContains "Service" p) constructorStep
        (fun _ _ => rfl) constructorParams _,
      @foldl_count Deps.service (fun t => strContains "service" (strLower t)) autowiredStep
        (fun _ _ => rfl) autowiredTypes _]
    simp
  · rw [@foldl_count Deps.repository
        (fun p => strContains "Repository" p || strContains "Dao" p) constructorStep
        (fun _ _ => rfl) constructorParams _,
      @foldl_count Deps.repository
        (fun t => strContains "repository" (strLower t) || strContains "dao" (strLower t))
        autowiredStep (fun _ _ => rfl) autowiredTypes _]
    simp
  · rw [@foldl_count Deps.entity (fun _ => false) constructorStep
        (fun _ _ => rfl) constructorParams _,
      @foldl_count Deps.entity (fun _ => false) autowiredStep
        (fun _ _ => rfl) autowiredTypes _]
    simp
  · rw [@foldl_count Deps.adapter (fun p => strContains "Adapter" p) constructorStep
        (fun _ _ => rfl) constructorParams _,
      @foldl_count Deps.adapter (fun t => strContains "adapter" (strLower t)) autowiredStep
        (fun _ _ => rfl) autowiredTypes _]
    simp
  · rw [@foldl_count Deps.port (fun p => strContains "Port" p) constructorStep
        (fun _ _ => rfl) constructorParams _,
      @foldl_count Deps.port (fun t => strContains "port" (strLower t)) autowiredStep
        (fun _ _ => rfl) autowiredTypes _]
    simp
  · rw [@foldl_count Deps.usecase (fun p => strContains "UseCase" p) constructorStep
        (fun _ _ => rfl) constructorParams _,
      @foldl_count Deps.usecase (fun t => strContains "usecase" (strLower t)) autowiredStep
        (fun _ _ => rfl) autowiredTypes _]
    simp
  · rw [@foldl_count Deps.gateway (fun p => strContains "Gateway" p) constructorStep
        (fun _ _ => rfl) constructorParams _,
      @foldl_count Deps.gateway (fun t => strContains "gateway" (strLower t)) autowiredStep
        (fun _ _ => rfl) autowiredTypes _]
    simp

/-- C6 (counterexample): the constructor-capture `"ProductSERVICE ps"`
case-insensitively contains the keyword `service`, yet the service bucket is
not incremented — the constructor pattern matches case-sensitively. -/
theorem C6_counterexample :
    strContains "service" (strLower "ProductSERVICE ps") = true ∧
    (analyze_dependencies [] ["ProductSERVICE ps"]).service = 0 := by
  exact ⟨by decide, by decide⟩

/-- C3 (amended): a failure of the raw metrics analysis (`raw_analyze`
raising) excludes the file — no record is produced; only a failure of the
cyclomatic-complexity pass (`cc_visit` raising) is recovered with the
documented default 1.0, the record still being produced, and missing
raw-metric attributes default the method/class counts to 0. -/
theorem C3_amended :
    (∀ (fd : FileData) (architecture : Arch) (confidence : ℚ),
      fd.rawResult = none → analyze_file fd architecture confidence = none) ∧
    (∀ (fd : FileData) (architecture : Arch) (confidence : ℚ) (raw : RawMetrics),
      ¬ fd.content.length < 50 → fd.rawResult = some raw →
      detect_layer fd.filepath fd.content ≠ Layer.other → fd.ccResult = none →
      ∃ row : Row, analyze_file fd architecture confidence = some row ∧
        row.avg_cc = 1 ∧
        (raw.functionsLen = none → raw.methodsLen = none → row.methods = 0) ∧
        (raw.classesLen = none → row.classes = 0)) := by
  constructor
  · intro fd architecture confidence h
    by_cases hlen : fd.content.length < 50
    · simp only [analyze_file, if_pos hlen]
    · simp only [analyze_file, if_neg hlen, h]
  · intro fd architecture confidence raw hlen hraw hlayer hcc
    simp only [analyze_file, if_neg hlen, hraw, if_neg hlayer]
    refine ⟨_, rfl, ?_, ?_, ?_⟩
    · simp [safe_cc, hcc]
    · intro hf hm
      simp [hf, hm]
    · intro hcl
      simp [hcl]

/-- C3 (counterexample): `fdC3` is successfully read, long enough, and
classifiable, but its metrics extraction fails (`raw_analyze` raises) — and
the analyzer produces no record for it, contrary to the claim that the
record is still produced with default metric values. -/
theorem C3_counterexample :
    50 ≤ fdC3.content.length ∧
    detect_layer fdC3.filepath fdC3.content ≠ Layer.other ∧
    fdC3.rawResult = none ∧
    analyze_file fdC3 Arch.layered 1 = none := by
  refine ⟨by decide, by decide, rfl, by decide⟩

/-- Witness for C3 (amended) at the concrete inputs `fdC3` and `fdC3b`. -/
theorem C3_amended_witness :
    analyze_file fdC3 Arch.mvc 1 = none ∧
    (∃ row : Row, analyze_file fdC3b Arch.mvc 1 = some row ∧
      row.avg_cc = 1 ∧
      ((⟨some 10, none, none, none⟩ : RawMetrics).functionsLen = none →
        (⟨some 10, none, none, none⟩ : RawMetrics).methodsLen = none → row.methods = 0) ∧
      ((⟨some 10, none, none, none⟩ : RawMetrics).classesLen = none → row.classes = 0)) :=
  ⟨C3_amended.1 fdC3 Arch.mvc 1 rfl,
   C3_amended.2 fdC3b Arch.mvc 1 ⟨some 10, none, none, none⟩ (by decide) rfl
     (by decide) rfl⟩
